import Mathlib

/-!
Shallow embedding of the clipboard service backend
(src/backend/app: core/auth.py, core/config.py, api/routes_auth.py,
api/routes_clipboard.py, models/clipboard.py).

Conventions of the embedding:
* HTTP exceptions raised via fastapi.HTTPException are modelled as
  `ApiError.http status detail`, with the detail strings copied from the
  source.  A Python AttributeError (which fastapi surfaces as a generic
  HTTP 500) is modelled as `ApiError.attributeError`.
* JSON values produced by response.json() are modelled by the inductive
  `Json`; Python truthiness and the str() coercion are modelled by
  `pyTruthy` and `pyStr`.
* Outbound HTTP traffic (httpx) is modelled by oracle functions passed as
  parameters: the token endpoint is `endpoint : HttpRequest → HttpResponse`
  and URL resolution (httpx URL.join) is `joinUrl`.
* datetimes are modelled as integers; datetime.now() becomes a `now`
  parameter.
-/

/-- JSON values as produced by Python json decoding.  Python booleans are a
subtype of int, which matters for isinstance checks; they are kept as a
separate constructor and the isinstance modelling is done at use sites. -/
inductive Json where
  | null : Json
  | bool (b : Bool) : Json
  | int (n : Int) : Json
  | float (q : Rat) : Json
  | str (s : String) : Json
  | arr (elems : List Json) : Json
  | obj (fields : List (String × Json)) : Json

/-- Python dict.get on a JSON object: the value of the first binding of the
key, none when the key is absent or the value is not an object. -/
def Json.get (j : Json) (k : String) : Option Json :=
  match j with
  | .obj fields => (fields.find? (fun p => p.1 == k)).map (fun p => p.2)
  | _ => none

/-- Python truthiness of a decoded JSON value: None, False, 0, 0.0, empty
string, empty list and empty dict are falsy, everything else truthy. -/
def pyTruthy : Json → Bool
  | .null => false
  | .bool b => b
  | .int n => !(n == 0)
  | .float q => !(q == 0)
  | .str s => !(s == "")
  | .arr l => !l.isEmpty
  | .obj l => !l.isEmpty

/-- Truthiness of an optional JSON value (a Python dict.get result, where
absence becomes None). -/
def optTruthy : Option Json → Bool
  | none => false
  | some v => pyTruthy v

/-- Python `a or b` on optional JSON values: the first operand when truthy,
otherwise the second operand. -/
def pyOr (a b : Option Json) : Option Json :=
  match a with
  | some v => if pyTruthy v then some v else b
  | none => b

/-- Python str() on a decoded JSON value.  The scalar cases match CPython;
the float and container renderings are approximations (the service only
applies str() to identifier claims, which are scalars in practice). -/
def pyStr : Json → String
  | .null => "None"
  | .bool b => if b then "True" else "False"
  | .int n => toString n
  | .float q => toString q
  | .str s => s
  | .arr _ => "[...]"
  | .obj _ => "[...]"

/-- Python truthiness of an optional string (None and the empty string are
falsy). -/
def pyTruthyStr : Option String → Bool
  | none => false
  | some s => !(s == "")

/-- Python `a or b` on optional strings, by truthiness. -/
def pyOrStr (a b : Option String) : Option String :=
  if pyTruthyStr a then a else b

/-- The decimal value Python int() assigns to a character, when it is a
Unicode decimal digit (category Nd).  The table covers the ASCII digits and
the fullwidth digits U+FF10 to U+FF19; other Nd ranges behave the same way
and are outside the inputs this development evaluates. -/
def pyCharDecimalValue (c : Char) : Option Nat :=
  if '0' ≤ c ∧ c ≤ '9' then some (c.toNat - 48)
  else if '０' ≤ c ∧ c ≤ '９' then some (c.toNat - 65296)
  else none

/-- Python per-character str.isdigit: true for decimal digits and also for
digit-class characters that are NOT decimal, such as the superscripts
one, two and three, on which int() raises ValueError.  The non-decimal
part of the table lists those superscripts; other such characters behave
the same way. -/
def pyCharIsDigit (c : Char) : Bool :=
  (pyCharDecimalValue c).isSome || c == '¹' || c == '²' || c == '³'

/-- Python str.isdigit on a string: nonempty and every character in the
digit class.  Note this is wider than what int() accepts. -/
def pyIsDigit (s : String) : Bool :=
  !(s == "") && s.toList.all pyCharIsDigit

/-- Python int() on a string of digit-class characters: the decimal value
when every character is a decimal digit, none (a ValueError) when some
character is digit-class but not decimal, such as a superscript. -/
def pyIntOfDigits (s : String) : Option Int :=
  s.toList.foldl
    (fun acc c =>
      match acc, pyCharDecimalValue c with
      | some a, some d => some (10 * a + (d : Int))
      | _, _ => none)
    (some 0)

/-- Python int() applied to a float: truncation toward zero. -/
def pyTrunc (q : Rat) : Int :=
  if 0 ≤ q then ⌊q⌋ else ⌈q⌉

/-- Errors terminating a request.  `http` mirrors fastapi.HTTPException with
its status code and detail string; `attributeError` mirrors a Python
AttributeError escaping the handler (which fastapi turns into a generic
HTTP 500 response); `valueError` mirrors a Python ValueError or pydantic
ValidationError escaping the handler the same way. -/
inductive ApiError where
  | http (status : Nat) (detail : String) : ApiError
  | attributeError (msg : String) : ApiError
  | valueError (msg : String) : ApiError
deriving DecidableEq, Repr

/-- Settings, from core/config.py (the OAuth2 configuration surface used by
the embedded components). -/
structure Settings where
  OAUTH2_ENABLED : Bool := false
  OAUTH2_USERINFO_URL : Option String := none
  OAUTH2_TOKEN_URL : Option String := none
  OAUTH2_REDIRECT_URI : Option String := none
  OAUTH2_CLIENT_ID : Option String := none
  OAUTH2_CLIENT_SECRET : Option String := none
  OAUTH2_SCOPE : Option String := none
  OAUTH2_AUDIENCE : Option String := none
  OAUTH2_ISSUER : Option String := none

/-- AuthenticatedUser, from core/auth.py lines 13-19. -/
structure AuthenticatedUser where
  user_id : String
  email : Option String := none
  username : Option String := none
  claims : Json := .obj []

/-- HTTP request method of an outbound httpx call. -/
inductive Method where
  | get : Method
  | post : Method
deriving DecidableEq, Repr

/-- An outbound httpx request: method, url, and optional form body. -/
structure HttpRequest where
  method : Method
  url : String
  body : Option (List (String × String)) := none
deriving DecidableEq, Repr

/-- An httpx response as the handlers consume it: status code, the optional
location header, and the response body (none models a body that is not
valid JSON, so that response.json() raises ValueError). -/
structure HttpResponse where
  status : Nat
  location : Option String := none
  body : Option Json := none

/-- httpx response.is_success: a 2xx status. -/
def isSuccessStatus (status : Nat) : Bool :=
  200 ≤ status && status < 300

/-- The identifier lookup of core/auth.py line 64: payload.get("sub") or
payload.get("id") or payload.get("user_id"), with Python `or` semantics. -/
def userIdClaimLookup (payload : Json) : Option Json :=
  pyOr (pyOr (payload.get "sub") (payload.get "id")) (payload.get "user_id")

/-- Lookup of an optional string claim coupled with the pydantic
Optional[str] field: kept when the value is a JSON string, dropped
otherwise. -/
def strClaim (v : Option Json) : Option String :=
  match v with
  | some (.str s) => some s
  | _ => none

/-- Python equality between a JSON claim value and a configured string: true
exactly when the claim is a string equal to the configured value (a non
string claim value never equals a Python str). -/
def jsonEqStr (v : Option Json) (s : Option String) : Bool :=
  match v, s with
  | some (.str t), some u => t == u
  | _, _ => false

/-- OAuth2UserInfoVerifier.verify, core/auth.py lines 44-92: the handling of
the userinfo endpoint response once the network call has produced a
response.  The configuration guard (line 26) and the network call itself
(lines 32-42) precede this and are modelled at call sites. -/
def OAuth2UserInfoVerifier.verify_response (settings : Settings)
    (response : HttpResponse) : Except ApiError AuthenticatedUser :=
  if response.status == 401 then
    .error (.http 401 "Invalid authentication credentials.")
  else if !isSuccessStatus response.status then
    .error (.http 502 ("Unable to fetch OAuth2 user info: " ++ toString response.status))
  else
    match response.body with
    | none => .error (.http 502 "OAuth2 user info response is not valid JSON.")
    | some payload =>
      let user_id := userIdClaimLookup payload
      if !optTruthy user_id then
        .error (.http 401 "User info response missing identifier.")
      else if pyTruthyStr settings.OAUTH2_AUDIENCE
          && optTruthy (payload.get "aud")
          && !(jsonEqStr (payload.get "aud") settings.OAUTH2_AUDIENCE) then
        .error (.http 401 "Token audience does not match the configured audience.")
      else if pyTruthyStr settings.OAUTH2_ISSUER
          && optTruthy (payload.get "iss")
          && !(jsonEqStr (payload.get "iss") settings.OAUTH2_ISSUER) then
        .error (.http 401 "Token issuer does not match the configured issuer.")
      else
        .ok { user_id := pyStr (user_id.getD .null)
              email := strClaim (payload.get "email")
              username := strClaim (pyOr (payload.get "username") (payload.get "preferred_username"))
              claims := payload }

/-- get_optional_user, core/auth.py lines 118-128.  The verifier (whose body
includes configuration checks and the network call) is passed as the
function `verify`. -/
def get_optional_user (settings : Settings)
    (verify : String → Except ApiError AuthenticatedUser)
    (credentials : Option String) : Except ApiError (Option AuthenticatedUser) :=
  if !settings.OAUTH2_ENABLED then
    .ok none
  else
    match credentials with
    | none => .ok none
    | some cred => (verify cred).map some

/-- Token exchange request payload, routes_auth.py lines 20-23. -/
structure TokenExchangeRequest where
  code : String
  redirect_uri : Option String := none
  code_verifier : Option String := none

/-- Token exchange response payload, routes_auth.py lines 26-32. -/
structure TokenExchangeResponse where
  access_token : String
  token_type : Option String := none
  expires_in : Option Int := none
  refresh_token : Option String := none
  scope : Option String := none
  user : AuthenticatedUser

/-- The redirect statuses handled at routes_auth.py line 89. -/
def redirectStatuses : List Nat := [301, 302, 303, 307, 308]

/-- The form body of the token request, routes_auth.py lines 65-77:
the base authorization_code grant fields plus code_verifier and scope
when truthy. -/
def tokenRequestBody (settings : Settings) (payload : TokenExchangeRequest) :
    List (String × String) :=
  [("grant_type", "authorization_code"),
   ("code", payload.code),
   ("redirect_uri", (pyOrStr payload.redirect_uri settings.OAUTH2_REDIRECT_URI).getD ""),
   ("client_id", settings.OAUTH2_CLIENT_ID.getD ""),
   ("client_secret", settings.OAUTH2_CLIENT_SECRET.getD "")]
  ++ (if pyTruthyStr payload.code_verifier then
        [("code_verifier", payload.code_verifier.getD "")] else [])
  ++ (if pyTruthyStr settings.OAUTH2_SCOPE then
        [("scope", settings.OAUTH2_SCOPE.getD "")] else [])

/-- The first request issued by the token exchange: a POST of the form body
to the configured token URL (routes_auth.py lines 83-87). -/
def firstTokenRequest (settings : Settings) (payload : TokenExchangeRequest) :
    HttpRequest :=
  { method := .post
    url := settings.OAUTH2_TOKEN_URL.getD ""
    body := some (tokenRequestBody settings payload) }

/-- The single follow-up request after a redirect, routes_auth.py lines
99-106: a GET without body for status 303, otherwise a POST repeating the
original form body, to the resolved target. -/
def followUpRequest (settings : Settings) (payload : TokenExchangeRequest)
    (redirectStatus : Nat) (target : String) : HttpRequest :=
  if redirectStatus == 303 then
    { method := .get, url := target, body := none }
  else
    { method := .post, url := target, body := some (tokenRequestBody settings payload) }

/-- The coercion of the expires_in field, routes_auth.py lines 142-151.
A string passing str.isdigit is handed to int(): when every character is a
decimal digit this parses to the integer, but a digit-class non decimal
character such as a superscript makes int() raise ValueError, which nothing
in the handler catches (HTTP 500).  A non digit string becomes None, a
numeric value is truncated to an integer by Python int() (a Python bool is
an int with value 0 or 1, so isinstance(expires_in, (float, int)) matches
it), and anything else becomes None. -/
def coerce_expires_in (v : Option Json) : Except ApiError (Option Int) :=
  match v with
  | some (.str s) =>
    if pyIsDigit s then
      match pyIntOfDigits s with
      | some n => .ok (some n)
      | none => .error (.valueError ("invalid literal for int() with base 10: " ++ s))
    else
      .ok none
  | some (.int n) => .ok (some n)
  | some (.bool b) => .ok (some (if b then 1 else 0))
  | some (.float q) => .ok (some (pyTrunc q))
  | _ => .ok none

/-- The tail of the token exchange once the final response is at hand,
routes_auth.py lines 113-160: status checks, JSON decoding, access token
extraction, user verification at line 140 (the bearer header interpolates
str() of the token, so a truthy non string access_token is still verified
first), then the expires_in coercion of lines 142-151 (whose ValueError
propagates), and finally the response construction, where a non string
access_token fails pydantic validation (HTTP 500).  The remaining optional
response fields are taken when they are JSON strings; a truthy non string
value in one of them would likewise fail pydantic validation, a corner
nothing here evaluates. -/
def finishTokenExchange (verify : String → Except ApiError AuthenticatedUser)
    (response : HttpResponse) : Except ApiError TokenExchangeResponse :=
  if response.status == 401 then
    .error (.http 401 "Authorization code is invalid or expired.")
  else if !isSuccessStatus response.status then
    .error (.http 502 ("Token endpoint returned unexpected status " ++ toString response.status ++ "."))
  else
    match response.body with
    | none => .error (.http 502 "Token endpoint response is not valid JSON.")
    | some token_response =>
      if !optTruthy (token_response.get "access_token") then
        .error (.http 502 "Token endpoint response missing access_token.")
      else
        match verify (pyStr ((token_response.get "access_token").getD .null)) with
        | .error e => .error e
        | .ok user =>
          match coerce_expires_in (token_response.get "expires_in") with
          | .error e => .error e
          | .ok expires_in =>
            match token_response.get "access_token" with
            | some (.str access_token) =>
              .ok { access_token := access_token
                    token_type := strClaim (token_response.get "token_type")
                    expires_in := expires_in
                    refresh_token := strClaim (token_response.get "refresh_token")
                    scope := strClaim (token_response.get "scope")
                    user := user }
            | _ => .error (.valueError "TokenExchangeResponse field access_token is not a string")

/-- exchange_authorization_code, routes_auth.py lines 36-160.  The token
endpoint is the oracle `endpoint`; URL resolution against the request URL
(httpx URL.join at line 97) is the oracle `joinUrl`; the userinfo verifier
invoked at line 140 is the oracle `verify`.  The redirect guard at line 91
is the Python truthiness test `if not location:`, which fails 502 both for
an absent Location header and for a present but empty one.  The result
pairs the trace of outbound token endpoint requests, in order, with the
outcome. -/
def exchange_authorization_code (settings : Settings)
    (endpoint : HttpRequest → HttpResponse)
    (joinUrl : String → String → String)
    (verify : String → Except ApiError AuthenticatedUser)
    (payload : TokenExchangeRequest) :
    List HttpRequest × Except ApiError TokenExchangeResponse :=
  if !settings.OAUTH2_ENABLED then
    ([], .error (.http 500 "OAuth2 authentication is not enabled on this server."))
  else if !pyTruthyStr settings.OAUTH2_TOKEN_URL then
    ([], .error (.http 500 "OAUTH2_TOKEN_URL is not configured."))
  else if !pyTruthyStr settings.OAUTH2_CLIENT_ID || !pyTruthyStr settings.OAUTH2_CLIENT_SECRET then
    ([], .error (.http 500 "OAuth2 client credentials are not configured."))
  else if !pyTruthyStr (pyOrStr payload.redirect_uri settings.OAUTH2_REDIRECT_URI) then
    ([], .error (.http 500 "OAuth2 redirect URI is not configured."))
  else
    let r0 := firstTokenRequest settings payload
    let resp0 := endpoint r0
    if resp0.status ∈ redirectStatuses then
      if !pyTruthyStr resp0.location then
        ([r0], .error (.http 502 "Token endpoint redirected without a location header."))
      else
        let r1 := followUpRequest settings payload resp0.status
          (joinUrl r0.url (resp0.location.getD ""))
        ([r0, r1], finishTokenExchange verify (endpoint r1))
    else
      ([r0], finishTokenExchange verify resp0)

/-- The code alphabet: string.ascii_uppercase + string.digits
(models/clipboard.py line 13). -/
def clipboardAlphabet : List Char :=
  "ABCDEFGHIJKLMNOPQRSTUVWXYZ0123456789".toList

/-- generate_clipboard_id, models/clipboard.py lines 11-13: six characters
drawn from the alphabet.  random.choices is modelled by the draw function
`pick`, reduced modulo the alphabet size. -/
def generate_clipboard_id (pick : Nat → Nat) : String :=
  String.mk ((List.range 6).map (fun i =>
    clipboardAlphabet.get ⟨pick i % 36, by
      have h : clipboardAlphabet.length = 36 := rfl
      rw [h]
      exact Nat.mod_lt _ (by decide)⟩))

/-- A stored clipboard row as the route handlers manipulate it.  The columns
declared by the ORM model (models/clipboard.py lines 16-27) are
clipboard_id, content, created_at, updated_at, expires_at, is_encrypted,
encryption_key and user; the server assigned id and timestamps are not
security relevant and are omitted here.  The route handlers additionally
read and write an is_public attribute (routes_clipboard.py lines 63, 105,
126, 129, 184-192) that the ORM model does NOT declare; the field is
included in this row model so that those handler lines and the spec level
statements about visibility are expressible, while the handlers access it
through `clipboardColumns` membership gates that reproduce the Python
AttributeError where the mapping omission actually bites. -/
structure Clipboard where
  clipboard_id : String
  content : String
  expires_at : Option Int := none
  is_encrypted : Bool := false
  encryption_key : Option String := none
  user : Option String := none
  is_public : Bool := false
deriving DecidableEq, Repr

/-- The attribute names the ORM mapping declares for Clipboard,
models/clipboard.py lines 19-27. -/
def clipboardColumns : List String :=
  ["id", "clipboard_id", "content", "created_at", "updated_at",
   "expires_at", "is_encrypted", "encryption_key", "user"]

/-- The fields the pydantic ClipboardBase / ClipboardCreate schema declares,
models/clipboard.py lines 31-40. -/
def clipboardCreateFields : List String :=
  ["content", "expires_at", "is_encrypted", "encryption_key", "user"]

/-- ClipboardCreate, models/clipboard.py lines 31-40: the request payload of
a create.  It declares no is_public field. -/
structure ClipboardCreate where
  content : String
  expires_at : Option Int := none
  is_encrypted : Bool := false
  encryption_key : Option String := none
  user : Option String := none
deriving DecidableEq, Repr

/-- ClipboardUpdate, models/clipboard.py lines 31-44, combined with the
model_dump(exclude_unset=True) partial update semantics of
routes_clipboard.py line 161: content is a required field and is therefore
always present; every optional field is wrapped in an outer Option whose
none means the field was absent from the payload.  The schema declares no
is_public field, so "is_public" can never occur in update_data. -/
structure ClipboardUpdate where
  content : String
  expires_at : Option (Option Int) := none
  is_encrypted : Option Bool := none
  encryption_key : Option (Option String) := none
  user : Option (Option String) := none
deriving DecidableEq, Repr

/-- The identifiers a caller may assign as owner, routes_clipboard.py lines
40-42 and 171-173: the user_id of the caller, plus the email when truthy. -/
def permittedIds (u : AuthenticatedUser) : List String :=
  u.user_id :: (if pyTruthyStr u.email then [u.email.getD ""] else [])

/-- The store of clipboard rows (the clipboards table). -/
abbrev ClipboardStore := List Clipboard

/-- Row lookup by code: db.query(Clipboard).filter(clipboard_id == code)
followed by first(). -/
def findClipboard (store : ClipboardStore) (clipboard_id : String) : Option Clipboard :=
  store.find? (fun r => r.clipboard_id == clipboard_id)

/-- The detail of the AttributeError raised when create_clipboard evaluates
clipboard_data.is_public (routes_clipboard.py line 63) on a ClipboardCreate
that declares no such field. -/
def createIsPublicAttrError : ApiError :=
  .attributeError "ClipboardCreate object has no attribute is_public"

/-- The detail of the AttributeError raised when a handler reads is_public
from a Clipboard instance or from the Clipboard class
(routes_clipboard.py lines 105, 126, 129) while the ORM mapping declares no
is_public column. -/
def clipboardIsPublicAttrError : ApiError :=
  .attributeError "Clipboard object has no attribute is_public"

/-- Outcome of one iteration of the create loop. -/
inductive CreateOutcome where
  | err (e : ApiError) : CreateOutcome
  | integrityError : CreateOutcome
  | created (store : ClipboardStore) (row : Clipboard) : CreateOutcome

/-- One attempt of create_clipboard, routes_clipboard.py lines 32-71:
owner authorization, the anonymous permanence guard, then construction and
insert of the row.  The construction at line 63 evaluates
clipboard_data.is_public; because the ClipboardCreate schema declares no
is_public field this is an AttributeError, modelled by the
clipboardCreateFields membership gate (whose insert branch is therefore
unreachable; false stands in for the unobtainable field value there).
IntegrityError is raised by the unique index on clipboard_id. -/
def create_attempt (store : ClipboardStore) (clipboard_id : String)
    (clipboard_data : ClipboardCreate)
    (current_user : Option AuthenticatedUser) : CreateOutcome :=
  let ownerCheck : Except ApiError (Option String) :=
    if pyTruthyStr clipboard_data.user then
      match current_user with
      | none => .error (.http 401 "Authentication required to create a private clipboard.")
      | some cu =>
        if !((permittedIds cu).contains (clipboard_data.user.getD "")) then
          .error (.http 403 "Cannot assign clipboard to a different user.")
        else
          .ok (some cu.user_id)
    else
      .ok none
  match ownerCheck with
  | .error e => .err e
  | .ok owner_id =>
    if clipboard_data.expires_at.isNone && current_user.isNone then
      .err (.http 401 "Authentication required to create a permanent clipboard.")
    else
      if "is_public" ∈ clipboardCreateFields then
        let row : Clipboard :=
          { clipboard_id := clipboard_id
            content := clipboard_data.content
            expires_at := clipboard_data.expires_at
            is_encrypted := clipboard_data.is_encrypted
            encryption_key := clipboard_data.encryption_key
            user := owner_id
            is_public := false }
        if store.any (fun r => r.clipboard_id == clipboard_id) then
          .integrityError
        else
          .created (store ++ [row]) row
      else
        .err createIsPublicAttrError

/-- The retry loop of create_clipboard over the list of generated codes:
an IntegrityError rolls back and continues with the next code; exhausting
the attempts fails with the HTTP 500 of routes_clipboard.py lines 73-76. -/
def create_loop (store : ClipboardStore) (clipboard_data : ClipboardCreate)
    (current_user : Option AuthenticatedUser) :
    List String → Except ApiError (ClipboardStore × Clipboard)
  | [] => .error (.http 500 "Failed to generate unique clipboard ID.")
  | id :: rest =>
    match create_attempt store id clipboard_data current_user with
    | .err e => .error e
    | .integrityError => create_loop store clipboard_data current_user rest
    | .created st row => .ok (st, row)

/-- create_clipboard, routes_clipboard.py lines 22-76: max_attempts = 10,
each attempt drawing a fresh code from generate_clipboard_id.  The random
source is `rand`, giving the draw function of each attempt. -/
def create_clipboard (rand : Nat → Nat → Nat) (store : ClipboardStore)
    (clipboard_data : ClipboardCreate)
    (current_user : Option AuthenticatedUser) :
    Except ApiError (ClipboardStore × Clipboard) :=
  create_loop store clipboard_data current_user
    ((List.range 10).map (fun i => generate_clipboard_id (rand i)))

/-- read_clipboard, routes_clipboard.py lines 79-112.  Returns the store
after the request (lazy expiry deletes the row) together with the outcome.
The visibility check at line 105 reads db_clipboard.is_public, which the
ORM mapping does not declare; the clipboardColumns gate reproduces that
AttributeError for owned rows. -/
def read_clipboard (store : ClipboardStore) (now : Int) (clipboard_id : String)
    (current_user : Option AuthenticatedUser) :
    ClipboardStore × Except ApiError Clipboard :=
  match findClipboard store clipboard_id with
  | none =>
    (store, .error (.http 404 ("Clipboard " ++ clipboard_id ++ " is not found.")))
  | some db_clipboard =>
    if (match db_clipboard.expires_at with
        | some t => decide (t < now)
        | none => false) then
      (store.eraseP (fun r => r.clipboard_id == clipboard_id),
       .error (.http 410 "Clipboard has expired."))
    else
      if db_clipboard.user ≠ none then
        if "is_public" ∈ clipboardColumns then
          if !db_clipboard.is_public then
            if (match current_user with
                | none => true
                | some cu => db_clipboard.user ≠ some cu.user_id) then
              (store, .error (.http 403 "Clipboard is private."))
            else
              (store, .ok db_clipboard)
          else
            (store, .ok db_clipboard)
        else
          (store, .error clipboardIsPublicAttrError)
      else
        (store, .ok db_clipboard)

/-- list_clipboards, routes_clipboard.py lines 115-132.  Both branches build
a filter over Clipboard.is_public (lines 126 and 129); the ORM mapping
declares no such column, so building the filter is an AttributeError,
reproduced by the clipboardColumns gate.  The filter itself mirrors
or_(is_public == True, user == current_user.user_id) for an authenticated
caller and is_public == True for an anonymous one, followed by
offset(skip).limit(limit). -/
def list_clipboards (store : ClipboardStore)
    (current_user : Option AuthenticatedUser) (skip limit : Nat) :
    Except ApiError (List Clipboard) :=
  if "is_public" ∈ clipboardColumns then
    let rows :=
      match current_user with
      | some cu => store.filter (fun (c : Clipboard) => c.is_public || c.user == some cu.user_id)
      | none => store.filter (fun (c : Clipboard) => c.is_public)
    .ok ((rows.drop skip).take limit)
  else
    .error clipboardIsPublicAttrError

/-- update_clipboard, routes_clipboard.py lines 135-199: lookup, ownership
check, owner reassignment authorization, then the partial field
application.  The visibility branch at lines 184-192 tests whether
"is_public" is in update_data; the ClipboardUpdate schema declares no
is_public field, so that membership is always false and the branch never
runs.  The setattr loop applies exactly the fields present in the
payload, with the user value replaced by the transformation of lines
164-181 (a truthy requested owner stores the user_id of the caller, a falsy
one clears the owner). -/
def update_clipboard (store : ClipboardStore) (clipboard_id : String)
    (clipboard_data : ClipboardUpdate)
    (current_user : Option AuthenticatedUser) :
    Except ApiError (ClipboardStore × Clipboard) :=
  match findClipboard store clipboard_id with
  | none =>
    .error (.http 404 ("Clipboard " ++ clipboard_id ++ " is not found."))
  | some db_clipboard =>
    if db_clipboard.user ≠ none
        && (match current_user with
            | none => true
            | some cu => db_clipboard.user ≠ some cu.user_id) then
      .error (.http 403 "Not authorized to modify this clipboard.")
    else
      let userDelta : Except ApiError (Option (Option String)) :=
        match clipboard_data.user with
        | none => .ok none
        | some requested_user =>
          if pyTruthyStr requested_user then
            match current_user with
            | none => .error (.http 401 "Authentication required to set clipboard visibility.")
            | some cu =>
              if !((permittedIds cu).contains (requested_user.getD "")) then
                .error (.http 403 "Cannot assign clipboard to a different user.")
              else
                .ok (some (some cu.user_id))
          else
            .ok (some none)
      match userDelta with
      | .error e => .error e
      | .ok newUser =>
        let updated : Clipboard :=
          { db_clipboard with
            content := clipboard_data.content
            expires_at := clipboard_data.expires_at.getD db_clipboard.expires_at
            is_encrypted := clipboard_data.is_encrypted.getD db_clipboard.is_encrypted
            encryption_key := clipboard_data.encryption_key.getD db_clipboard.encryption_key
            user := newUser.getD db_clipboard.user }
        .ok (store.map (fun r => if r.clipboard_id == clipboard_id then updated else r),
             updated)

/-- A concrete public clipboard row used to exhibit the list divergence. -/
def examplePublicClipboard : Clipboard :=
  { clipboard_id := "ABC123", content := "hello", is_public := true }

/-- A degenerate random source for concrete create evaluations. -/
def rand0 : Nat → Nat → Nat := fun _ _ => 0

/-- C1: the claim says an anonymous list request returns exactly the public
clipboards; in the code both filter branches of list_clipboards reference
Clipboard.is_public, a column the ORM mapping of models/clipboard.py does
not declare, so every list request dies with an AttributeError (HTTP 500)
instead of returning a result.  Evaluated at a store holding one public
clipboard with an anonymous caller, and proved for every input. -/
theorem list_clipboards_is_public_attribute_error :
    list_clipboards [examplePublicClipboard] none 0 100
      = .error clipboardIsPublicAttrError ∧
    ∀ (store : ClipboardStore) (cu : Option AuthenticatedUser) (skip limit : Nat),
      list_clipboards store cu skip limit = .error clipboardIsPublicAttrError := by
  refine ⟨rfl, ?_⟩
  intro store cu skip limit
  unfold list_clipboards
  rw [if_neg (by decide)]

/-- C3: the claim says an anonymous create without expires_at fails
Unauthorized (which holds) and that the same request with expires_at set
succeeds with 201 (which fails: building the row at routes_clipboard.py
line 63 evaluates clipboard_data.is_public, a field the ClipboardCreate
schema of models/clipboard.py does not declare, so the request dies with an
AttributeError instead of succeeding). -/
theorem anonymous_create_evaluation :
    create_clipboard rand0 [] { content := "hello", expires_at := some 4102444800 } none
      = .error createIsPublicAttrError ∧
    create_clipboard rand0 [] { content := "hello" } none
      = .error (.http 401 "Authentication required to create a permanent clipboard.") :=
  ⟨rfl, rfl⟩

/-- C6: the optional user resolver returns no user, without an error, when
OAuth2 is disabled or no bearer credential is present; with OAuth2 enabled
and a credential present it delegates to the verifier and propagates its
outcome, so a verifier failure is never downgraded to an anonymous
result. -/
theorem optional_user_resolver_spec :
    (∀ (s : Settings) (verify : String → Except ApiError AuthenticatedUser)
        (cred : Option String), s.OAUTH2_ENABLED = false →
        get_optional_user s verify cred = .ok none) ∧
    (∀ (s : Settings) (verify : String → Except ApiError AuthenticatedUser),
        get_optional_user s verify none = .ok none) ∧
    (∀ (s : Settings) (verify : String → Except ApiError AuthenticatedUser)
        (t : String), s.OAUTH2_ENABLED = true →
        get_optional_user s verify (some t) = (verify t).map some) ∧
    (∀ (s : Settings) (verify : String → Except ApiError AuthenticatedUser)
        (t : String) (e : ApiError), s.OAUTH2_ENABLED = true → verify t = .error e →
        get_optional_user s verify (some t) = .error e) := by
  refine ⟨?_, ?_, ?_, ?_⟩
  · intro s verify cred h
    simp [get_optional_user, h]
  · intro s verify
    unfold get_optional_user
    split <;> rfl
  · intro s verify t h
    simp [get_optional_user, h]
  · intro s verify t e h hv
    simp [get_optional_user, h, hv, Except.map]

/-- Witness for the optional user resolver theorem: with OAuth2 disabled a
supplied credential still resolves to no user, and with OAuth2 enabled a
failing verifier propagates its error. -/
theorem optional_user_resolver_spec_witness :
    get_optional_user {} (fun _ => .error (.http 502 "down")) (some "tok") = .ok none ∧
    get_optional_user { OAUTH2_ENABLED := true } (fun _ => .error (.http 502 "down"))
      (some "tok") = .error (.http 502 "down") :=
  ⟨optional_user_resolver_spec.1 {} (fun _ => .error (.http 502 "down")) (some "tok") rfl,
   optional_user_resolver_spec.2.2.2 { OAUTH2_ENABLED := true }
     (fun _ => .error (.http 502 "down")) "tok" (.http 502 "down") rfl rfl⟩

/-- When every character of a list has a decimal value, the int() fold
yields a value from any some accumulator. -/
theorem pyIntOfDigits_fold_isSome (l : List Char)
    (h : l.all (fun c => (pyCharDecimalValue c).isSome) = true) :
    ∀ a : Int, ∃ n, l.foldl
      (fun acc c =>
        match acc, pyCharDecimalValue c with
        | some a, some d => some (10 * a + (d : Int))
        | _, _ => none)
      (some a) = some n := by
  induction l with
  | nil =>
    intro a
    exact ⟨a, rfl⟩
  | cons c t ih =>
    intro a
    rw [List.all_cons, Bool.and_eq_true] at h
    cases hd : pyCharDecimalValue c with
    | none => rw [hd] at h; simp at h
    | some d =>
      have hstep :
          (match some a, pyCharDecimalValue c with
           | some a, some d => some (10 * a + (d : Int))
           | _, _ => none) = some (10 * a + (d : Int)) := by
        rw [hd]
      rw [List.foldl_cons, hstep]
      exact ih h.2 (10 * a + (d : Int))

/-- The int() fold absorbs a none accumulator. -/
theorem pyIntOfDigits_fold_none (l : List Char) :
    l.foldl
      (fun acc c =>
        match acc, pyCharDecimalValue c with
        | some a, some d => some (10 * a + (d : Int))
        | _, _ => none)
      none = none := by
  induction l with
  | nil => rfl
  | cons c t ih =>
    rw [List.foldl_cons]
    exact ih

/-- When some character of a list has no decimal value, the int() fold
yields none from any accumulator. -/
theorem pyIntOfDigits_fold_none_of_bad (l : List Char)
    (h : l.all (fun c => (pyCharDecimalValue c).isSome) = false) :
    ∀ a : Int, l.foldl
      (fun acc c =>
        match acc, pyCharDecimalValue c with
        | some a, some d => some (10 * a + (d : Int))
        | _, _ => none)
      (some a) = none := by
  induction l with
  | nil => simp at h
  | cons c t ih =>
    intro a
    rw [List.all_cons] at h
    cases hd : pyCharDecimalValue c with
    | none =>
      have hstep :
          (match some a, pyCharDecimalValue c with
           | some a, some d => some (10 * a + (d : Int))
           | _, _ => none) = none := by
        rw [hd]
      rw [List.foldl_cons, hstep]
      exact pyIntOfDigits_fold_none t
    | some d =>
      have hc : (pyCharDecimalValue c).isSome = true := by
        rw [hd]
        rfl
      rw [hc, Bool.true_and] at h
      have hstep :
          (match some a, pyCharDecimalValue c with
           | some a, some d => some (10 * a + (d : Int))
           | _, _ => none) = some (10 * a + (d : Int)) := by
        rw [hd]
      rw [List.foldl_cons, hstep]
      exact ih h (10 * a + (d : Int))

/-- Counterexample to C7 as stated: the coercion can raise.  The superscript
two passes str.isdigit, so the handler calls int() on it, and int() raises
ValueError, surfaced as a 500 response rather than an absent field; a
fullwidth digit string also passes and parses to a number rather than
being normalized to absent. -/
theorem expires_in_coercion_raises_counterexample :
    pyIsDigit "²" = true ∧
    coerce_expires_in (some (.str "²"))
      = .error (.valueError "invalid literal for int() with base 10: ²") ∧
    pyIsDigit "１２３" = true ∧
    coerce_expires_in (some (.str "１２３")) = .ok (some 123) := by
  refine ⟨by decide, rfl, by decide, rfl⟩

/-- C7 (amended): the expires_in coercion maps an integer to itself, an
integral float to its integer value, a non digit string, null or an absent
field to absent (matching the spec examples 120, 45.0 and abc), and a
string passing str.isdigit to the result of int(): the parsed integer when
every character is a decimal digit, and an uncaught ValueError (HTTP 500)
when the string contains a digit-class character that is not decimal —
the coercion is NOT raise free on that last kind of input. -/
theorem expires_in_coercion_spec :
    (∀ n : Int, coerce_expires_in (some (.int n)) = .ok (some n)) ∧
    (∀ n : Int, coerce_expires_in (some (.float (n : Rat))) = .ok (some n)) ∧
    (∀ s : String, pyIsDigit s = true →
        (s.toList.all (fun c => (pyCharDecimalValue c).isSome)) = true →
        ∃ n : Int, pyIntOfDigits s = some n ∧
          coerce_expires_in (some (.str s)) = .ok (some n)) ∧
    (∀ s : String, pyIsDigit s = true →
        (s.toList.all (fun c => (pyCharDecimalValue c).isSome)) = false →
        coerce_expires_in (some (.str s))
          = .error (.valueError ("invalid literal for int() with base 10: " ++ s))) ∧
    (∀ s : String, pyIsDigit s = false →
        coerce_expires_in (some (.str s)) = .ok none) ∧
    coerce_expires_in (some .null) = .ok none ∧
    coerce_expires_in none = .ok none ∧
    coerce_expires_in (some (.str "120")) = .ok (some 120) ∧
    coerce_expires_in (some (.float 45)) = .ok (some 45) ∧
    coerce_expires_in (some (.str "abc")) = .ok none := by
  refine ⟨?_, ?_, ?_, ?_, ?_, rfl, rfl, rfl, ?_, rfl⟩
  · intro n
    rfl
  · intro n
    simp only [coerce_expires_in, pyTrunc]
    split
    · simp
    · simp
  · intro s h hall
    obtain ⟨n, hn⟩ := pyIntOfDigits_fold_isSome s.toList hall 0
    have hp : pyIntOfDigits s = some n := hn
    refine ⟨n, hp, ?_⟩
    simp [coerce_expires_in, h, hp]
  · intro s h hall
    have hn : pyIntOfDigits s = none :=
      pyIntOfDigits_fold_none_of_bad s.toList hall 0
    simp [coerce_expires_in, h, hn]
  · intro s h
    simp [coerce_expires_in, h]
  · show Except.ok (some (pyTrunc 45)) = Except.ok (some 45)
    norm_num [pyTrunc]

/-- Witness for the coercion theorem: the digit string seven parses, a non
digit string is normalized to absent, and the superscript raises. -/
theorem expires_in_coercion_spec_witness :
    (∃ n : Int, pyIntOfDigits "7" = some n ∧
      coerce_expires_in (some (.str "7")) = .ok (some n)) ∧
    coerce_expires_in (some (.str "x2")) = .ok none ∧
    coerce_expires_in (some (.str "²"))
      = .error (.valueError ("invalid literal for int() with base 10: " ++ "²")) :=
  ⟨expires_in_coercion_spec.2.2.1 "7" (by decide) (by decide),
   expires_in_coercion_spec.2.2.2.2.1 "x2" (by decide),
   expires_in_coercion_spec.2.2.2.1 "²" (by decide) (by decide)⟩

/-- Whether a request outcome is an HTTP 403 Forbidden. -/
def isForbidden {α : Type} : Except ApiError α → Bool
  | .error (.http 403 _) => true
  | _ => false

/-- A create attempt by an authenticated caller requesting an owner outside
the permitted identifiers fails with the 403 of routes_clipboard.py
lines 43-47. -/
theorem create_attempt_forbidden (store : ClipboardStore) (id : String)
    (data : ClipboardCreate) (u : AuthenticatedUser) (req : String)
    (hdata : data.user = some req) (hreq : req ≠ "")
    (hmem : req ∉ permittedIds u) :
    create_attempt store id data (some u)
      = .err (.http 403 "Cannot assign clipboard to a different user.") := by
  have hne : (req == "") = false := by
    simpa using hreq
  unfold create_attempt
  simp [hdata, pyTruthyStr, hne, hmem]

/-- No create attempt can reach the insert: the row construction of
routes_clipboard.py line 63 dies on the missing is_public field first. -/
theorem create_attempt_never_created (store : ClipboardStore) (id : String)
    (data : ClipboardCreate) (cu : Option AuthenticatedUser)
    (st : ClipboardStore) (row : Clipboard) :
    create_attempt store id data cu ≠ .created st row := by
  have hm : ¬("is_public" ∈ clipboardCreateFields) := by
    decide
  unfold create_attempt
  simp only [if_neg hm]
  split
  · simp
  · split
    · simp
    · simp

/-- The create loop therefore never succeeds, whatever codes are drawn. -/
theorem create_loop_never_ok (store : ClipboardStore) (data : ClipboardCreate)
    (cu : Option AuthenticatedUser) :
    ∀ (ids : List String) (out : ClipboardStore × Clipboard),
      create_loop store data cu ids ≠ .ok out := by
  intro ids
  induction ids with
  | nil =>
    intro out
    simp [create_loop]
  | cons id rest ih =>
    intro out
    unfold create_loop
    cases hatt : create_attempt store id data cu with
    | err e => simp [hatt]
    | integrityError =>
      simp only [hatt]
      exact ih out
    | created st row => exact absurd hatt (create_attempt_never_created store id data cu st row)

/-- create_clipboard never succeeds (the AttributeError of line 63 precedes
every insert). -/
theorem create_clipboard_never_ok (rand : Nat → Nat → Nat)
    (store : ClipboardStore) (data : ClipboardCreate)
    (cu : Option AuthenticatedUser) (out : ClipboardStore × Clipboard) :
    create_clipboard rand store data cu ≠ .ok out :=
  create_loop_never_ok store data cu _ out

/-- The create loop surfaces the error of its first attempt. -/
theorem create_loop_err_first (store : ClipboardStore) (data : ClipboardCreate)
    (cu : Option AuthenticatedUser) (id : String) (rest : List String)
    (e : ApiError) (hatt : create_attempt store id data cu = .err e) :
    create_loop store data cu (id :: rest) = .error e := by
  unfold create_loop
  rw [hatt]

/-- C2: the owner field of a create or update payload is accepted only for
an authenticated caller whose user_id or email equals the requested
identifier.  An authenticated caller requesting any other identifier gets
HTTP 403 from both operations before anything is written (the embedded
operations return a changed store only on success, so a 403 leaves the
store unchanged), and either operation can succeed on such a payload only
for an authenticated caller with a permitted identifier. -/
theorem owner_assignment_requires_identity_match :
    (∀ (rand : Nat → Nat → Nat) (store : ClipboardStore) (data : ClipboardCreate)
        (u : AuthenticatedUser) (req : String),
        data.user = some req → req ≠ "" → req ∉ permittedIds u →
        create_clipboard rand store data (some u)
          = .error (.http 403 "Cannot assign clipboard to a different user.")) ∧
    (∀ (store : ClipboardStore) (cid : String) (data : ClipboardUpdate)
        (u : AuthenticatedUser) (c : Clipboard) (req : String),
        findClipboard store cid = some c →
        data.user = some (some req) → req ≠ "" → req ∉ permittedIds u →
        isForbidden (update_clipboard store cid data (some u)) = true) ∧
    (∀ (store : ClipboardStore) (cid : String) (data : ClipboardUpdate)
        (cu : Option AuthenticatedUser) (out : ClipboardStore × Clipboard) (req : String),
        data.user = some (some req) → req ≠ "" →
        update_clipboard store cid data cu = .ok out →
        ∃ u, cu = some u ∧ req ∈ permittedIds u) ∧
    (∀ (rand : Nat → Nat → Nat) (store : ClipboardStore) (data : ClipboardCreate)
        (cu : Option AuthenticatedUser) (out : ClipboardStore × Clipboard) (req : String),
        data.user = some req → req ≠ "" →
        create_clipboard rand store data cu = .ok out →
        ∃ u, cu = some u ∧ req ∈ permittedIds u) := by
  refine ⟨?_, ?_, ?_, ?_⟩
  · intro rand store data u req hdata hreq hmem
    unfold create_clipboard
    rw [show List.range 10 = [0, 1, 2, 3, 4, 5, 6, 7, 8, 9] from rfl]
    simp only [List.map_cons]
    exact create_loop_err_first store data (some u) _ _ _
      (create_attempt_forbidden store _ data u req hdata hreq hmem)
  · intro store cid data u c req hfind hdata hreq hmem
    have hne : (req == "") = false := by
      simpa using hreq
    simp only [update_clipboard, hfind]
    split
    · rfl
    · simp [hdata, pyTruthyStr, hne, hmem, isForbidden]
  · intro store cid data cu out req hdata hreq hok
    have hne : (req == "") = false := by
      simpa using hreq
    cases hfind : findClipboard store cid with
    | none =>
      simp [update_clipboard, hfind] at hok
    | some c =>
      simp only [update_clipboard, hfind] at hok
      split at hok
      · simp at hok
      · simp only [hdata] at hok
        cases cu with
        | none =>
          simp [pyTruthyStr, hne] at hok
        | some u =>
          by_cases hm2 : req ∈ permittedIds u
          · exact ⟨u, rfl, hm2⟩
          · simp [pyTruthyStr, hne, hm2] at hok
  · intro rand store data cu out req hdata hreq hok
    exact absurd hok (create_clipboard_never_ok rand store data cu out)

/-- Witness for the owner assignment theorem: alice cannot create a
clipboard owned by mallory, and cannot update an ownerless clipboard to be
owned by mallory. -/
theorem owner_assignment_requires_identity_match_witness :
    create_clipboard rand0 [] { content := "x", user := some "mallory" }
      (some { user_id := "alice" })
      = .error (.http 403 "Cannot assign clipboard to a different user.") ∧
    isForbidden (update_clipboard [{ clipboard_id := "ABC123", content := "c" }] "ABC123"
      { content := "c", user := some (some "mallory") } (some { user_id := "alice" })) = true :=
  ⟨owner_assignment_requires_identity_match.1 rand0 []
      { content := "x", user := some "mallory" } { user_id := "alice" } "mallory"
      rfl (by decide) (by decide),
   owner_assignment_requires_identity_match.2.1 [{ clipboard_id := "ABC123", content := "c" }]
      "ABC123" { content := "c", user := some (some "mallory") } { user_id := "alice" }
      { clipboard_id := "ABC123", content := "c" } "mallory"
      rfl rfl (by decide) (by decide)⟩

/-- C9: when a requested owner is accepted because it equals the email of
the caller (and differs from the user_id), an update stores the user_id of
the caller, never the email; the create path stores nothing at all on such
a request, since every create dies on the missing is_public field before
the insert.  Hence every owner value these operations store is a
user_id. -/
theorem email_accepted_owner_stores_user_id
    (store : ClipboardStore) (cid : String) (data : ClipboardUpdate)
    (u : AuthenticatedUser) (c : Clipboard) (req : String)
    (hfind : findClipboard store cid = some c)
    (hown : c.user = none ∨ c.user = some u.user_id)
    (hdata : data.user = some (some req))
    (hemail : u.email = some req) (hreq : req ≠ "") (hneq : req ≠ u.user_id) :
    (∃ st2 row, update_clipboard store cid data (some u) = .ok (st2, row) ∧
      row.user = some u.user_id ∧ row.user ≠ some req) ∧
    (∀ (rand : Nat → Nat → Nat) (data2 : ClipboardCreate), data2.user = some req →
      create_clipboard rand store data2 (some u) = .error createIsPublicAttrError) := by
  have hne : (req == "") = false := by
    simpa using hreq
  have hmem : req ∈ permittedIds u := by
    simp [permittedIds, hemail, pyTruthyStr, hne]
  constructor
  · simp only [update_clipboard, hfind]
    split
    · rename_i hcond
      exfalso
      rcases hown with h0 | h0 <;> simp [h0] at hcond
    · simp [hdata, pyTruthyStr, hne, hmem]
      exact ⟨_, _, ⟨rfl, rfl⟩, rfl, by simp [hneq.symm]⟩
  · intro rand data2 hdata2
    unfold create_clipboard
    rw [show List.range 10 = [0, 1, 2, 3, 4, 5, 6, 7, 8, 9] from rfl]
    simp only [List.map_cons]
    refine create_loop_err_first store data2 (some u) _ _ _ ?_
    unfold create_attempt
    simp [hdata2, pyTruthyStr, hne, hmem, clipboardCreateFields]

/-- Witness for the email acceptance theorem: alice, whose email is the
requested identifier, updates an ownerless clipboard and the stored owner
is her user_id. -/
theorem email_accepted_owner_stores_user_id_witness :
    (∃ st2 row,
      update_clipboard [{ clipboard_id := "ABC123", content := "c" }] "ABC123"
        { content := "c", user := some (some "alice@example.com") }
        (some { user_id := "alice", email := some "alice@example.com" }) = .ok (st2, row) ∧
      row.user = some "alice" ∧ row.user ≠ some "alice@example.com") ∧
    (∀ (rand : Nat → Nat → Nat) (data2 : ClipboardCreate),
      data2.user = some "alice@example.com" →
      create_clipboard rand [{ clipboard_id := "ABC123", content := "c" }] data2
        (some { user_id := "alice", email := some "alice@example.com" })
        = .error createIsPublicAttrError) :=
  email_accepted_owner_stores_user_id
    [{ clipboard_id := "ABC123", content := "c" }] "ABC123"
    { content := "c", user := some (some "alice@example.com") }
    { user_id := "alice", email := some "alice@example.com" }
    { clipboard_id := "ABC123", content := "c" } "alice@example.com"
    rfl (Or.inl rfl) rfl rfl (by decide) (by decide)

/-- After erasing the row with a given code from a store whose codes are
unique, a lookup of that code finds nothing. -/
theorem findClipboard_eraseP_eq_none (store : ClipboardStore) (cid : String)
    (hnodup : (store.map Clipboard.clipboard_id).Nodup) :
    findClipboard (store.eraseP (fun r => r.clipboard_id == cid)) cid = none := by
  induction store with
  | nil => rfl
  | cons a t ih =>
    rw [List.map_cons, List.nodup_cons] at hnodup
    by_cases ha : (a.clipboard_id == cid) = true
    · have herase : (a :: t).eraseP (fun r => r.clipboard_id == cid) = t := by
        simp [List.eraseP_cons, ha]
      rw [herase]
      rw [findClipboard, List.find?_eq_none]
      intro x hx
      have hac : a.clipboard_id = cid := by
        simpa using ha
      intro hxc
      have hxc2 : x.clipboard_id = a.clipboard_id := by
        rw [hac]
        simpa using hxc
      exact hnodup.1 (hxc2 ▸ List.mem_map_of_mem Clipboard.clipboard_id hx)
    · have herase : (a :: t).eraseP (fun r => r.clipboard_id == cid)
          = a :: t.eraseP (fun r => r.clipboard_id == cid) := by
        simp [List.eraseP_cons, ha]
      rw [herase]
      rw [findClipboard, List.find?_cons_of_neg _ (by simpa using ha)]
      exact ih hnodup.2

/-- C4: reading an existing clipboard whose expires_at is in the past
deletes the row and fails 410 Gone whatever the caller and whatever the
ownership and visibility fields hold (so the expiry check precedes the
visibility check and an expired private clipboard can never yield 403);
a subsequent read of the same code, by anyone at any later time, fails
404 Not Found. -/
theorem expired_read_gone_then_not_found
    (store : ClipboardStore) (now now2 : Int) (cid : String)
    (cu cu2 : Option AuthenticatedUser) (c : Clipboard) (t : Int)
    (hfind : findClipboard store cid = some c)
    (hexp : c.expires_at = some t) (hlt : t < now)
    (hnodup : (store.map Clipboard.clipboard_id).Nodup) :
    read_clipboard store now cid cu
      = (store.eraseP (fun r => r.clipboard_id == cid),
         .error (.http 410 "Clipboard has expired.")) ∧
    read_clipboard (store.eraseP (fun r => r.clipboard_id == cid)) now2 cid cu2
      = (store.eraseP (fun r => r.clipboard_id == cid),
         .error (.http 404 ("Clipboard " ++ cid ++ " is not found."))) := by
  constructor
  · simp only [read_clipboard, hfind, hexp]
    rw [if_pos (by simpa using hlt)]
  · simp only [read_clipboard, findClipboard_eraseP_eq_none store cid hnodup]

/-- A concrete expired private clipboard owned by alice. -/
def expiredPrivateClipboard : Clipboard :=
  { clipboard_id := "EXP111", content := "secret", expires_at := some 50,
    user := some "alice", is_public := false }

/-- Witness for the expiry theorem: an anonymous read of the expired
private clipboard deletes it and yields 410 Gone rather than 403, and the
next read yields 404. -/
theorem expired_read_gone_then_not_found_witness :
    read_clipboard [expiredPrivateClipboard] 100 "EXP111" none
      = ([], .error (.http 410 "Clipboard has expired.")) ∧
    read_clipboard [] 100 "EXP111" none
      = ([], .error (.http 404 "Clipboard EXP111 is not found.")) :=
  expired_read_gone_then_not_found [expiredPrivateClipboard] 100 100 "EXP111"
    none none expiredPrivateClipboard 50 rfl rfl (by decide) (by decide)

/-- C8: every generated clipboard code has length exactly six and draws
every character from the uppercase plus digits alphabet, whatever the
random source; but the retry on unique constraint violation and the
InternalError on exhaustion are unreachable, because every create attempt
dies on the missing is_public field before any insert: an authenticated
create of a permanent clipboard, which the claim expects to insert and
possibly retry, evaluates to the AttributeError instead. -/
theorem clipboard_id_generation_and_create_evaluation :
    (∀ pick : Nat → Nat,
      (generate_clipboard_id pick).length = 6 ∧
      ((generate_clipboard_id pick).toList.all
        (fun ch => clipboardAlphabet.contains ch)) = true) ∧
    create_clipboard rand0 [] { content := "x" } (some { user_id := "alice" })
      = .error createIsPublicAttrError := by
  refine ⟨?_, rfl⟩
  intro pick
  constructor
  · simp [generate_clipboard_id, String.length]
  · simp only [generate_clipboard_id, String.toList]
    rw [List.all_eq_true]
    intro ch hch
    rcases List.mem_map.mp hch with ⟨i, hi, rfl⟩
    simp

/-- A response carrying a redirect status is neither a 401 nor a success,
so the tail of the token exchange rejects it with 502 Bad Gateway. -/
theorem finishTokenExchange_redirect (verify : String → Except ApiError AuthenticatedUser)
    (resp : HttpResponse) (h : resp.status ∈ redirectStatuses) :
    finishTokenExchange verify resp
      = .error (.http 502 ("Token endpoint returned unexpected status "
          ++ toString resp.status ++ ".")) := by
  have h401 : (resp.status == 401) = false := by
    simp [redirectStatuses] at h
    rcases h with h | h | h | h | h <;> rw [h] <;> decide
  have hsucc : isSuccessStatus resp.status = false := by
    simp [redirectStatuses] at h
    rcases h with h | h | h | h | h <;> rw [h] <;> decide
  unfold finishTokenExchange
  simp [h401, hsucc]

/-- C5: when the first token endpoint response has a redirect status, a
falsy Location header (absent, or present but empty, since the code tests
Python truthiness) fails 502 with no further request, and otherwise
exactly one follow-up request is issued, to the location resolved against
the first request URL, a GET for 303 and otherwise a POST repeating the
original form body; the exchange continues on the response of that single
follow-up, and if that response is itself a redirect it is rejected with
502 rather than followed. -/
theorem token_exchange_single_redirect_hop
    (settings : Settings) (endpoint : HttpRequest → HttpResponse)
    (joinUrl : String → String → String)
    (verify : String → Except ApiError AuthenticatedUser)
    (payload : TokenExchangeRequest)
    (hEnabled : settings.OAUTH2_ENABLED = true)
    (hTok : pyTruthyStr settings.OAUTH2_TOKEN_URL = true)
    (hCid : pyTruthyStr settings.OAUTH2_CLIENT_ID = true)
    (hCs : pyTruthyStr settings.OAUTH2_CLIENT_SECRET = true)
    (hRu : pyTruthyStr (pyOrStr payload.redirect_uri settings.OAUTH2_REDIRECT_URI) = true)
    (hRedir : (endpoint (firstTokenRequest settings payload)).status ∈ redirectStatuses) :
    (pyTruthyStr (endpoint (firstTokenRequest settings payload)).location = false →
      exchange_authorization_code settings endpoint joinUrl verify payload
        = ([firstTokenRequest settings payload],
           .error (.http 502 "Token endpoint redirected without a location header."))) ∧
    (∀ loc, (endpoint (firstTokenRequest settings payload)).location = some loc → loc ≠ "" →
      exchange_authorization_code settings endpoint joinUrl verify payload
        = ([firstTokenRequest settings payload,
            followUpRequest settings payload
              (endpoint (firstTokenRequest settings payload)).status
              (joinUrl (firstTokenRequest settings payload).url loc)],
           finishTokenExchange verify
             (endpoint (followUpRequest settings payload
               (endpoint (firstTokenRequest settings payload)).status
               (joinUrl (firstTokenRequest settings payload).url loc)))) ∧
      ((endpoint (followUpRequest settings payload
            (endpoint (firstTokenRequest settings payload)).status
            (joinUrl (firstTokenRequest settings payload).url loc))).status ∈ redirectStatuses →
        (exchange_authorization_code settings endpoint joinUrl verify payload).2
          = .error (.http 502 ("Token endpoint returned unexpected status "
              ++ toString (endpoint (followUpRequest settings payload
                   (endpoint (firstTokenRequest settings payload)).status
                   (joinUrl (firstTokenRequest settings payload).url loc))).status ++ ".")))) := by
  have h1 : (!settings.OAUTH2_ENABLED) = false := by
    rw [hEnabled]
    rfl
  have h2 : (!pyTruthyStr settings.OAUTH2_TOKEN_URL) = false := by
    rw [hTok]
    rfl
  have h3 : (!pyTruthyStr settings.OAUTH2_CLIENT_ID
      || !pyTruthyStr settings.OAUTH2_CLIENT_SECRET) = false := by
    rw [hCid, hCs]
    rfl
  have h4 : (!pyTruthyStr (pyOrStr payload.redirect_uri settings.OAUTH2_REDIRECT_URI)) = false := by
    rw [hRu]
    rfl
  refine ⟨?_, ?_⟩
  · intro hloc
    unfold exchange_authorization_code
    simp only [h1, h2, h3, h4, Bool.false_eq_true, if_false]
    rw [if_pos hRedir, if_pos (by rw [hloc]; rfl)]
  · intro loc hloc hne
    have hbeq : (loc == "") = false := by
      simpa using hne
    have hfull :
        exchange_authorization_code settings endpoint joinUrl verify payload
          = ([firstTokenRequest settings payload,
              followUpRequest settings payload
                (endpoint (firstTokenRequest settings payload)).status
                (joinUrl (firstTokenRequest settings payload).url loc)],
             finishTokenExchange verify
               (endpoint (followUpRequest settings payload
                 (endpoint (firstTokenRequest settings payload)).status
                 (joinUrl (firstTokenRequest settings payload).url loc)))) := by
      unfold exchange_authorization_code
      simp only [h1, h2, h3, h4, Bool.false_eq_true, if_false]
      rw [if_pos hRedir, hloc]
      simp [pyTruthyStr, hbeq]
    refine ⟨hfull, fun h2r => ?_⟩
    rw [hfull]
    exact finishTokenExchange_redirect verify _ h2r

/-- Concrete settings for the redirect witness. -/
def exSettings : Settings :=
  { OAUTH2_ENABLED := true
    OAUTH2_TOKEN_URL := some "https://idp/token"
    OAUTH2_CLIENT_ID := some "cid"
    OAUTH2_CLIENT_SECRET := some "sec"
    OAUTH2_REDIRECT_URI := some "https://app/cb" }

/-- Concrete token endpoint for the redirect witness: the configured URL
answers 303 with a location, and the redirect target answers with yet
another redirect. -/
def exEndpoint : HttpRequest → HttpResponse := fun r =>
  if r.url == "https://idp/token" then
    { status := 303, location := some "https://idp/token2" }
  else
    { status := 302, location := some "https://idp/loop" }

/-- Concrete URL resolver for the redirect witness. -/
def exJoin : String → String → String := fun _ loc => loc

/-- Concrete verifier for the redirect witness (never reached). -/
def exVerify : String → Except ApiError AuthenticatedUser :=
  fun _ => .error (.http 401 "Invalid authentication credentials.")

/-- Concrete exchange payload for the redirect witness. -/
def exPayload : TokenExchangeRequest := { code := "abc" }

/-- Witness for the single redirect hop theorem: the 303 answer triggers
exactly one GET follow-up to the resolved location, and the 302 answer of
the follow-up is rejected with 502 instead of being followed. -/
theorem token_exchange_single_redirect_hop_witness :
    exchange_authorization_code exSettings exEndpoint exJoin exVerify exPayload
      = ([firstTokenRequest exSettings exPayload,
          followUpRequest exSettings exPayload 303 "https://idp/token2"],
         finishTokenExchange exVerify
           (exEndpoint (followUpRequest exSettings exPayload 303 "https://idp/token2"))) ∧
    (exchange_authorization_code exSettings exEndpoint exJoin exVerify exPayload).2
      = .error (.http 502 "Token endpoint returned unexpected status 302.") :=
  ⟨(token_exchange_single_redirect_hop exSettings exEndpoint exJoin exVerify exPayload
      rfl rfl rfl rfl rfl (by decide)).2 "https://idp/token2" rfl (by decide) |>.1,
   (token_exchange_single_redirect_hop exSettings exEndpoint exJoin exVerify exPayload
      rfl rfl rfl rfl rfl (by decide)).2 "https://idp/token2" rfl (by decide) |>.2 (by decide)⟩

/-- The selection the spec describes for the identifier: the first truthy
value among the sub, id and user_id claims, in that priority order. -/
def firstTruthy3 (a b c : Option Json) : Option Json :=
  if optTruthy a then a
  else if optTruthy b then b
  else if optTruthy c then c
  else none

/-- Python or keeps a truthy left operand. -/
theorem pyOr_of_truthy (a b : Option Json) (h : optTruthy a = true) : pyOr a b = a := by
  cases a with
  | none => simp [optTruthy] at h
  | some v =>
    simp only [optTruthy] at h
    simp [pyOr, h]

/-- Python or falls through a falsy left operand. -/
theorem pyOr_of_falsy (a b : Option Json) (h : optTruthy a = false) : pyOr a b = b := by
  cases a with
  | none => rfl
  | some v =>
    simp only [optTruthy] at h
    simp [pyOr, h]

/-- When the chained lookup of line 64 is truthy, it equals the first
truthy claim among sub, id and user_id in priority order. -/
theorem userIdClaimLookup_firstTruthy3 (p : Json)
    (h : optTruthy (userIdClaimLookup p) = true) :
    ∃ v, userIdClaimLookup p = some v ∧
      firstTruthy3 (p.get "sub") (p.get "id") (p.get "user_id") = some v ∧
      pyTruthy v = true := by
  by_cases hs : optTruthy (p.get "sub") = true
  · have heq : userIdClaimLookup p = p.get "sub" := by
      unfold userIdClaimLookup
      rw [pyOr_of_truthy _ _ hs, pyOr_of_truthy _ _ hs]
    cases hv : p.get "sub" with
    | none => rw [hv] at hs; simp [optTruthy] at hs
    | some v =>
      have hvt : pyTruthy v = true := by
        rw [hv] at hs
        simpa [optTruthy] using hs
      refine ⟨v, heq.trans hv, ?_, hvt⟩
      unfold firstTruthy3
      simp [optTruthy, hvt]
  · have hs2 : optTruthy (p.get "sub") = false := eq_false_of_ne_true hs
    have heq0 : userIdClaimLookup p = pyOr (p.get "id") (p.get "user_id") := by
      unfold userIdClaimLookup
      rw [pyOr_of_falsy _ _ hs2]
    by_cases hi : optTruthy (p.get "id") = true
    · have heq : userIdClaimLookup p = p.get "id" := by
        rw [heq0, pyOr_of_truthy _ _ hi]
      cases hv : p.get "id" with
      | none => rw [hv] at hi; simp [optTruthy] at hi
      | some v =>
        have hvt : pyTruthy v = true := by
          rw [hv] at hi
          simpa [optTruthy] using hi
        refine ⟨v, heq.trans hv, ?_, hvt⟩
        have c1 : ¬(optTruthy (p.get "sub") = true) := by
          rw [hs2]
          simp
        have c2 : optTruthy (some v) = true := by
          simpa [optTruthy] using hvt
        unfold firstTruthy3
        rw [if_neg c1, if_pos c2]
    · have hi2 : optTruthy (p.get "id") = false := eq_false_of_ne_true hi
      have heq : userIdClaimLookup p = p.get "user_id" := by
        rw [heq0, pyOr_of_falsy _ _ hi2]
      have hu : optTruthy (p.get "user_id") = true := by
        rw [← heq]
        exact h
      cases hv : p.get "user_id" with
      | none => rw [hv] at hu; simp [optTruthy] at hu
      | some v =>
        have hvt : pyTruthy v = true := by
          rw [hv] at hu
          simpa [optTruthy] using hu
        refine ⟨v, heq.trans hv, ?_, hvt⟩
        have c1 : ¬(optTruthy (p.get "sub") = true) := by
          rw [hs2]
          simp
        have c2 : ¬(optTruthy (p.get "id") = true) := by
          rw [hi2]
          simp
        have c3 : optTruthy (some v) = true := by
          simpa [optTruthy] using hvt
        unfold firstTruthy3
        rw [if_neg c1, if_neg c2, if_pos c3]

/-- C10: every userinfo response the verifier accepts yields a user_id that
is the str() coercion of the first truthy value among the sub, id and
user_id claims in that priority order; a successful response in which all
three are absent or falsy is rejected with 401 Unauthorized. -/
theorem userinfo_identifier_selection :
    (∀ (settings : Settings) (resp : HttpResponse) (p : Json) (u : AuthenticatedUser),
        resp.body = some p →
        OAuth2UserInfoVerifier.verify_response settings resp = .ok u →
        ∃ v, firstTruthy3 (p.get "sub") (p.get "id") (p.get "user_id") = some v ∧
          pyTruthy v = true ∧ u.user_id = pyStr v) ∧
    (∀ (settings : Settings) (resp : HttpResponse) (p : Json),
        resp.body = some p → isSuccessStatus resp.status = true →
        optTruthy (p.get "sub") = false → optTruthy (p.get "id") = false →
        optTruthy (p.get "user_id") = false →
        OAuth2UserInfoVerifier.verify_response settings resp
          = .error (.http 401 "User info response missing identifier.")) := by
  constructor
  · intro settings resp p u hbody hok
    unfold OAuth2UserInfoVerifier.verify_response at hok
    simp only [hbody] at hok
    split at hok
    · exact absurd hok (by simp)
    · split at hok
      · exact absurd hok (by simp)
      · split at hok
        · exact absurd hok (by simp)
        · rename_i hid
          have htr : optTruthy (userIdClaimLookup p) = true := by
            by_contra hne
            have hf : optTruthy (userIdClaimLookup p) = false := eq_false_of_ne_true hne
            exact hid (by rw [hf]; rfl)
          split at hok
          · exact absurd hok (by simp)
          · split at hok
            · exact absurd hok (by simp)
            · obtain ⟨v, hv1, hv2, hv3⟩ := userIdClaimLookup_firstTruthy3 p htr
              injection hok with hu
              refine ⟨v, hv2, hv3, ?_⟩
              rw [← hu]
              simp [hv1]
  · intro settings resp p hbody hsucc hs hi hu
    have hlt : resp.status < 300 := by
      simp only [isSuccessStatus, Bool.and_eq_true, decide_eq_true_eq] at hsucc
      exact hsucc.2
    have h401 : (resp.status == 401) = false := by
      simp only [beq_eq_false_iff_ne]
      omega
    have hlook : optTruthy (userIdClaimLookup p) = false := by
      unfold userIdClaimLookup
      rw [pyOr_of_falsy _ _ hs, pyOr_of_falsy _ _ hi]
      exact hu
    unfold OAuth2UserInfoVerifier.verify_response
    simp [hbody, h401, hsucc, hlook]

/-- Concrete userinfo payload for the identifier selection witness: sub is
absent and id is the integer seven. -/
def exUserinfoPayload : Json :=
  .obj [("id", .int 7), ("email", .str "alice@example.com")]

/-- The user record the verifier builds from the concrete payload. -/
def exUserinfoUser : AuthenticatedUser :=
  { user_id := "7", email := some "alice@example.com", username := none,
    claims := exUserinfoPayload }

/-- Witness for the identifier selection theorem: the verifier accepts the
concrete payload and its user_id is the str() coercion of the id claim. -/
theorem userinfo_identifier_selection_witness :
    ∃ v, firstTruthy3 (exUserinfoPayload.get "sub") (exUserinfoPayload.get "id")
        (exUserinfoPayload.get "user_id") = some v ∧
      pyTruthy v = true ∧ exUserinfoUser.user_id = pyStr v :=
  userinfo_identifier_selection.1 {} { status := 200, body := some exUserinfoPayload }
    exUserinfoPayload exUserinfoUser rfl rfl
